import Mathlib

/-!
Verification of `seed_pitcher.browsers.simular` (`SimularBrowser`), a thin
thread-safety wrapper around the simular.ai browser driver.

Shallow embedding: every method of `SimularBrowser` becomes a pure Lean
function.  The behaviour of the external driver (and of element handles)
is an oracle passed in as a parameter: each oracle field gives the outcome
(`Except PyError _`) of the corresponding underlying call.  Every method
returns its Python result (`Except PyError α`, where `Except.error`
models a raised exception) together with a trace of the observable
actions it performed, in order: driver commands, element commands,
`time.sleep` pauses, and lock acquire/release.  Sleep durations are
recorded in tenths of a time-unit so that the 0.5-unit sleep of `scroll`
stays a natural number (`sleep 20` = 2 units, `sleep 10` = 1 unit,
`sleep 5` = 0.5 units).
-/

/-- Python exceptions relevant to `simular.py`: `ImportError`,
`ValueError` (with their messages), an arbitrary driver-raised fault, and
the `TimeoutException` raised by `WebDriverWait.until`. -/
inductive PyError where
  | importError (msg : String)
  | valueError (msg : String)
  | driverError (msg : String)
  | timeoutError
deriving DecidableEq, Repr

/-- Selenium locator strategies used by `wait_for_element`:
`By.CSS_SELECTOR` and `By.XPATH`. -/
inductive ByMethod where
  | cssSelector
  | xpath
deriving DecidableEq, Repr

/-- Observable actions of a `SimularBrowser` method: lock operations,
driver commands, element-handle commands and `time.sleep` pauses
(durations in tenths of a time-unit). -/
inductive Event where
  | lockAcquire
  | lockRelease
  | implicitlyWait (seconds : Nat)
  | driverGet (url : String)
  | pageSource
  | findCss (selector : String)
  | findXpath (selector : String)
  | findAllCss (selector : String)
  | findAllXpath (selector : String)
  | elemClick (e : Nat)
  | elemClear (e : Nat)
  | sendKeys (e : Nat) (text : String)
  | elemText (e : Nat)
  | getAttr (e : Nat) (attrName : String)
  | execScript (script : String)
  | sleep (tenths : Nat)
  | waitUntilPresent (bm : ByMethod) (selector : String) (timeout : Nat)
  | driverQuit
deriving DecidableEq, Repr

/-- Oracle for the underlying driver object: the outcome each delegated
driver call would produce.  Element handles are opaque `Nat` ids. -/
structure Driver where
  getResult : String → Except PyError Unit
  pageSourceResult : Except PyError String
  findCssResult : String → Except PyError Nat
  findXpathResult : String → Except PyError Nat
  findAllCssResult : String → Except PyError (List Nat)
  findAllXpathResult : String → Except PyError (List Nat)
  execScriptResult : String → Except PyError Unit
  quitResult : Except PyError Unit

/-- Oracle for an element handle: its opaque id and the outcome of each
element-level call (`click`, `clear`, `send_keys`, `.text`,
`get_attribute`). -/
structure Element where
  id : Nat
  clickResult : Except PyError Unit
  clearResult : Except PyError Unit
  sendKeysResult : String → Except PyError Unit
  textResult : Except PyError String
  getAttributeResult : String → Except PyError String

/-- Oracle for `__init__`: the outcome of `from simular import Simular`,
of `Simular()` / `.driver` (yielding the driver handle id), and of
`driver.implicitly_wait`. -/
structure InitEnv where
  importSimular : Except PyError Unit
  mkBrowser : Except PyError Nat
  implicitlyWaitResult : Nat → Except PyError Unit

/-- The session state after a successful `__init__`: the driver handle. -/
structure Session where
  driver : Nat
deriving DecidableEq, Repr

/-- The exact message of the `ImportError` re-raised by `__init__`. -/
def simularMissingMsg : String :=
  "The simular package is not installed. Please install it with: pip install pysimular"

/-- The `except` clauses of `__init__`: `except ImportError` replaces the
error with the install-guidance `ImportError`; `except Exception as e`
re-raises any other error unchanged. -/
def translateInitError (e : PyError) : PyError :=
  match e with
  | .importError _ => .importError simularMissingMsg
  | e => e

/-- Method `SimularBrowser.__init__`: import `Simular`; inside `with self._lock`
construct the browser, take its driver and set `implicitly_wait(10)`;
`ImportError` is translated to the install-guidance message, any other
exception is re-raised unchanged.  The `with` statement releases the lock
even when its body raises. -/
def construct (env : InitEnv) : Except PyError Session × List Event :=
  match env.importSimular with
  | .error e => (.error (translateInitError e), [])
  | .ok _ =>
    match env.mkBrowser with
    | .error e =>
        (.error (translateInitError e), [.lockAcquire, .lockRelease])
    | .ok d =>
      match env.implicitlyWaitResult 10 with
      | .error e =>
          (.error (translateInitError e),
           [.lockAcquire, .implicitlyWait 10, .lockRelease])
      | .ok _ =>
          (.ok ⟨d⟩, [.lockAcquire, .implicitlyWait 10, .lockRelease])

/-- Method `navigate(url)`: `self.driver.get(url)` then `time.sleep(2)`. -/
def navigate (d : Driver) (url : String) : Except PyError Unit × List Event :=
  match d.getResult url with
  | .error e => (.error e, [.driverGet url])
  | .ok _ => (.ok (), [.driverGet url, .sleep 20])

/-- Method `get_page_source()`: returns `self.driver.page_source`. -/
def get_page_source (d : Driver) : Except PyError String × List Event :=
  (d.pageSourceResult, [.pageSource])

/-- Method `find_element(selector, by)`: dispatch on `by`; any value other than
`"css"` or `"xpath"` raises `ValueError(f"Unsupported selector type: {by}")`
before any driver call. -/
def find_element (d : Driver) (selector : String) (by_ : String) :
    Except PyError Nat × List Event :=
  if by_ = "css" then
    (d.findCssResult selector, [.findCss selector])
  else if by_ = "xpath" then
    (d.findXpathResult selector, [.findXpath selector])
  else
    (.error (.valueError ("Unsupported selector type: " ++ by_)), [])

/-- Method `find_elements(selector, by)`: same dispatch as `find_element`, with
the plural driver lookups. -/
def find_elements (d : Driver) (selector : String) (by_ : String) :
    Except PyError (List Nat) × List Event :=
  if by_ = "css" then
    (d.findAllCssResult selector, [.findAllCss selector])
  else if by_ = "xpath" then
    (d.findAllXpathResult selector, [.findAllXpath selector])
  else
    (.error (.valueError ("Unsupported selector type: " ++ by_)), [])

/-- Method `click(element)`: `element.click()` then `time.sleep(1)`. -/
def click (e : Element) : Except PyError Unit × List Event :=
  match e.clickResult with
  | .error err => (.error err, [.elemClick e.id])
  | .ok _ => (.ok (), [.elemClick e.id, .sleep 10])

/-- Method `type_text(element, text)`: `element.clear()` then
`element.send_keys(text)`. -/
def type_text (e : Element) (text : String) : Except PyError Unit × List Event :=
  match e.clearResult with
  | .error err => (.error err, [.elemClear e.id])
  | .ok _ =>
    match e.sendKeysResult text with
    | .error err => (.error err, [.elemClear e.id, .sendKeys e.id text])
    | .ok _ => (.ok (), [.elemClear e.id, .sendKeys e.id text])

/-- Method `get_text(element)`: returns `element.text`. -/
def get_text (e : Element) : Except PyError String × List Event :=
  (e.textResult, [.elemText e.id])

/-- Method `get_attribute(element, attrName)`: returns the pass-through read
of the named attribute from the element handle. -/
def get_attribute (e : Element) (attrName : String) :
    Except PyError String × List Event :=
  (e.getAttributeResult attrName, [.getAttr e.id attrName])

/-- The script string `f"window.scrollBy(0, {amount})"` built by `scroll`. -/
def scrollScript (amount : Int) : String :=
  "window.scrollBy(0, " ++ toString amount ++ ")"

/-- Method `scroll(amount=500)`: `self.driver.execute_script(...)` then
`time.sleep(0.5)`. -/
def scroll (d : Driver) (amount : Int) : Except PyError Unit × List Event :=
  match d.execScriptResult (scrollScript amount) with
  | .error e => (.error e, [.execScript (scrollScript amount)])
  | .ok _ => (.ok (), [.execScript (scrollScript amount), .sleep 5])

/-- Selector dispatch `by_method = By.CSS_SELECTOR if by == "css" else By.XPATH` in
`wait_for_element`. -/
def byMethodOf (by_ : String) : ByMethod :=
  if by_ = "css" then .cssSelector else .xpath

/-- Method `wait_for_element(selector, by="css", timeout=10)`: the three
`selenium` imports run before the `try` block, so an import failure
propagates (`imports` is their outcome).  Then
`WebDriverWait(self.driver, timeout).until(EC.presence_of_element_located(...))`
(oracle `waitUntil`) runs under a bare `except:` that maps every raised
error to a `None` return. -/
def wait_for_element (imports : Except PyError Unit)
    (waitUntil : ByMethod → String → Nat → Except PyError Nat)
    (selector : String) (by_ : String) (timeout : Nat) :
    Except PyError (Option Nat) × List Event :=
  match imports with
  | .error e => (.error e, [])
  | .ok _ =>
    match waitUntil (byMethodOf by_) selector timeout with
    | .ok elem =>
        (.ok (some elem), [.waitUntilPresent (byMethodOf by_) selector timeout])
    | .error _ =>
        (.ok none, [.waitUntilPresent (byMethodOf by_) selector timeout])

/-- Method `close()`: `self.driver.quit()`, unconditionally. -/
def close (d : Driver) : Except PyError Unit × List Event :=
  (d.quitResult, [.driverQuit])

/-- A driver oracle all of whose calls succeed, for concrete instantiations. -/
def okDriver : Driver :=
  ⟨fun _ => .ok (), .ok "<html></html>", fun _ => .ok 1, fun _ => .ok 2,
   fun _ => .ok [1, 2], fun _ => .ok [], fun _ => .ok (), .ok ()⟩

/-- An element oracle all of whose calls succeed, with handle id 7. -/
def okElement : Element :=
  ⟨7, .ok (), .ok (), fun _ => .ok (), .ok "hello", fun _ => .ok "value"⟩

/-- An init oracle where every step succeeds; the driver handle is 3. -/
def okInit : InitEnv := ⟨.ok (), .ok 3, fun _ => .ok ()⟩

/-- An init oracle where `from simular import Simular` fails. -/
def missingSimularInit : InitEnv :=
  ⟨.error (.importError "No module named simular"), .ok 3, fun _ => .ok ()⟩

/-- An init oracle where driver construction raises a non-import error. -/
def crashingInit : InitEnv :=
  ⟨.ok (), .error (.driverError "boom"), fun _ => .ok ()⟩

/-- A poll oracle that always finds element 5. -/
def pollFinds : ByMethod → String → Nat → Except PyError Nat :=
  fun _ _ _ => .ok 5

/-- A poll oracle that always times out. -/
def pollTimesOut : ByMethod → String → Nat → Except PyError Nat :=
  fun _ _ _ => .error .timeoutError

/-- A poll oracle that always raises a driver fault. -/
def pollFaults : ByMethod → String → Nat → Except PyError Nat :=
  fun _ _ _ => .error (.driverError "driver crashed")

theorem translateInitError_of_not_import (e : PyError)
    (h : ∀ m, e ≠ PyError.importError m) : translateInitError e = e := by
  cases e with
  | importError m => exact absurd rfl (h m)
  | valueError m => rfl
  | driverError m => rfl
  | timeoutError => rfl

/-- C1: for `by` in {"css","xpath"}, `wait_for_element` returns `None`
whenever the poll raises (timeout and driver fault alike are swallowed,
never propagated), and returns the non-null handle whenever the poll
finds a matching element within the timeout. -/
theorem wait_for_element_none_or_handle
    (waitUntil : ByMethod → String → Nat → Except PyError Nat)
    (selector by_ : String) (timeout : Nat)
    (_hby : by_ = "css" ∨ by_ = "xpath") :
    (∀ e : PyError, waitUntil (byMethodOf by_) selector timeout = .error e →
      (wait_for_element (.ok ()) waitUntil selector by_ timeout).1 = .ok none) ∧
    (∀ elem : Nat, waitUntil (byMethodOf by_) selector timeout = .ok elem →
      (wait_for_element (.ok ()) waitUntil selector by_ timeout).1 =
        .ok (some elem)) := by
  constructor
  · intro e he
    simp [wait_for_element, he]
  · intro elem he
    simp [wait_for_element, he]

theorem wait_for_element_none_or_handle_witness :
    (wait_for_element (.ok ()) pollTimesOut "div.card" "css" 10).1 = .ok none ∧
    (wait_for_element (.ok ()) pollFaults "div.card" "css" 10).1 = .ok none ∧
    (wait_for_element (.ok ()) pollFinds "div.card" "xpath" 10).1 =
      .ok (some 5) :=
  ⟨(wait_for_element_none_or_handle pollTimesOut "div.card" "css" 10
      (Or.inl rfl)).1 PyError.timeoutError rfl,
   (wait_for_element_none_or_handle pollFaults "div.card" "css" 10
      (Or.inl rfl)).1 (PyError.driverError "driver crashed") rfl,
   (wait_for_element_none_or_handle pollFinds "div.card" "xpath" 10
      (Or.inr rfl)).2 5 rfl⟩

/-- C2: for `by` outside {"css","xpath"}, both `find_element` and
`find_elements` raise a `ValueError` naming the offending value and make
no driver call (empty trace); for "css" and "xpath" the result is exactly
the delegated driver lookup. -/
theorem find_dispatch_validation (d : Driver) (selector by_ : String) :
    (by_ ≠ "css" → by_ ≠ "xpath" →
      find_element d selector by_ =
        (.error (.valueError ("Unsupported selector type: " ++ by_)), []) ∧
      find_elements d selector by_ =
        (.error (.valueError ("Unsupported selector type: " ++ by_)), [])) ∧
    find_element d selector "css" =
      (d.findCssResult selector, [Event.findCss selector]) ∧
    find_element d selector "xpath" =
      (d.findXpathResult selector, [Event.findXpath selector]) ∧
    find_elements d selector "css" =
      (d.findAllCssResult selector, [Event.findAllCss selector]) ∧
    find_elements d selector "xpath" =
      (d.findAllXpathResult selector, [Event.findAllXpath selector]) := by
  refine ⟨fun h1 h2 => ⟨?_, ?_⟩, ?_, ?_, ?_, ?_⟩
  · simp [find_element, h1, h2]
  · simp [find_elements, h1, h2]
  · simp [find_element]
  · simp [find_element]
  · simp [find_elements]
  · simp [find_elements]

theorem find_dispatch_validation_witness :
    find_element okDriver "#main" "id" =
      (.error (.valueError ("Unsupported selector type: " ++ "id")), []) ∧
    find_elements okDriver "#main" "id" =
      (.error (.valueError ("Unsupported selector type: " ++ "id")), []) ∧
    find_element okDriver "#main" "css" = (.ok 1, [Event.findCss "#main"]) :=
  ⟨((find_dispatch_validation okDriver "#main" "id").1
      (by decide) (by decide)).1,
   ((find_dispatch_validation okDriver "#main" "id").1
      (by decide) (by decide)).2,
   (find_dispatch_validation okDriver "#main" "css").2.1⟩

/-- C3: construction fails with the specific install-guidance
`ImportError` on a missing-dependency (`ImportError`) outcome; any other
construction error is re-raised unchanged; on success the driver handle
is set and `implicitly_wait(10)` is configured. -/
theorem construct_error_translation (env : InitEnv) :
    (∀ m : String, env.importSimular = .error (.importError m) →
      (construct env).1 = .error (.importError simularMissingMsg)) ∧
    (∀ e : PyError, env.importSimular = .error e →
      (∀ m, e ≠ .importError m) → (construct env).1 = .error e) ∧
    (∀ e : PyError, env.importSimular = .ok () → env.mkBrowser = .error e →
      (∀ m, e ≠ .importError m) → (construct env).1 = .error e) ∧
    (∀ d : Nat, env.importSimular = .ok () → env.mkBrowser = .ok d →
      env.implicitlyWaitResult 10 = .ok () →
      (construct env).1 = .ok ⟨d⟩ ∧
        Event.implicitlyWait 10 ∈ (construct env).2) := by
  refine ⟨?_, ?_, ?_, ?_⟩
  · intro m hm
    simp [construct, hm, translateInitError]
  · intro e he hne
    simp [construct, he, translateInitError_of_not_import e hne]
  · intro e hok herr hne
    simp [construct, hok, herr, translateInitError_of_not_import e hne]
  · intro d hok hbr hw
    simp [construct, hok, hbr, hw]

theorem construct_error_translation_witness :
    (construct missingSimularInit).1 =
      .error (.importError simularMissingMsg) ∧
    (construct crashingInit).1 = .error (.driverError "boom") ∧
    (construct okInit).1 = .ok ⟨3⟩ ∧
    Event.implicitlyWait 10 ∈ (construct okInit).2 :=
  ⟨(construct_error_translation missingSimularInit).1
      "No module named simular" rfl,
   (construct_error_translation crashingInit).2.2.1
      (.driverError "boom") rfl rfl (fun m => by simp),
   ((construct_error_translation okInit).2.2.2 3 rfl rfl rfl).1,
   ((construct_error_translation okInit).2.2.2 3 rfl rfl rfl).2⟩

/-- C4: the reentrant lock is acquired only during construction — no
other operation's trace ever contains a lock acquisition, for any oracle
outcome, while a construction whose import succeeds does acquire it. -/
theorem lock_only_guards_construction :
    (∀ d url, Event.lockAcquire ∉ (navigate d url).2) ∧
    (∀ d, Event.lockAcquire ∉ (get_page_source d).2) ∧
    (∀ d s b, Event.lockAcquire ∉ (find_element d s b).2) ∧
    (∀ d s b, Event.lockAcquire ∉ (find_elements d s b).2) ∧
    (∀ e, Event.lockAcquire ∉ (click e).2) ∧
    (∀ e t, Event.lockAcquire ∉ (type_text e t).2) ∧
    (∀ e, Event.lockAcquire ∉ (get_text e).2) ∧
    (∀ e a, Event.lockAcquire ∉ (get_attribute e a).2) ∧
    (∀ d a, Event.lockAcquire ∉ (scroll d a).2) ∧
    (∀ imp w s b t, Event.lockAcquire ∉ (wait_for_element imp w s b t).2) ∧
    (∀ d, Event.lockAcquire ∉ (close d).2) ∧
    (∀ env : InitEnv, env.importSimular = .ok () →
      Event.lockAcquire ∈ (construct env).2) := by
  refine ⟨?_, ?_, ?_, ?_, ?_, ?_, ?_, ?_, ?_, ?_, ?_, ?_⟩
  · intro d url
    cases h : d.getResult url <;> simp [navigate, h]
  · intro d
    simp [get_page_source]
  · intro d s b
    simp only [find_element]
    split <;> try split
    all_goals simp
  · intro d s b
    simp only [find_elements]
    split <;> try split
    all_goals simp
  · intro e
    cases h : e.clickResult <;> simp [click, h]
  · intro e t
    cases h1 : e.clearResult with
    | error err => simp [type_text, h1]
    | ok u => cases h2 : e.sendKeysResult t <;> simp [type_text, h1, h2]
  · intro e
    simp [get_text]
  · intro e a
    simp [get_attribute]
  · intro d a
    cases h : d.execScriptResult (scrollScript a) <;> simp [scroll, h]
  · intro imp w s b t
    cases imp with
    | error e => simp [wait_for_element]
    | ok u => cases hw : w (byMethodOf b) s t <;> simp [wait_for_element, hw]
  · intro d
    simp [close]
  · intro env h
    cases hb : env.mkBrowser with
    | error e => simp [construct, h, hb]
    | ok d =>
        cases hw : env.implicitlyWaitResult 10 <;> simp [construct, h, hb, hw]

theorem lock_only_guards_construction_witness :
    Event.lockAcquire ∉ (navigate okDriver "http://example.com").2 ∧
    Event.lockAcquire ∈ (construct okInit).2 :=
  ⟨lock_only_guards_construction.1 okDriver "http://example.com",
   lock_only_guards_construction.2.2.2.2.2.2.2.2.2.2.2 okInit rfl⟩

/-- C5: `navigate(url)` issues exactly one load command for `url`,
followed by exactly one fixed 2-time-unit pause, and then returns. -/
theorem navigate_one_get_one_sleep (d : Driver) (url : String)
    (h : d.getResult url = .ok ()) :
    navigate d url = (.ok (), [Event.driverGet url, Event.sleep 20]) := by
  simp [navigate, h]

theorem navigate_one_get_one_sleep_witness :
    navigate okDriver "http://example.com" =
      (.ok (), [Event.driverGet "http://example.com", Event.sleep 20]) :=
  navigate_one_get_one_sleep okDriver "http://example.com" rfl

/-- C6: `click(element)` issues exactly one click command on the handle,
followed by exactly one fixed 1-time-unit pause, before returning. -/
theorem click_one_click_one_sleep (e : Element)
    (h : e.clickResult = .ok ()) :
    click e = (.ok (), [Event.elemClick e.id, Event.sleep 10]) := by
  simp [click, h]

theorem click_one_click_one_sleep_witness :
    click okElement = (.ok (), [Event.elemClick 7, Event.sleep 10]) :=
  click_one_click_one_sleep okElement rfl

/-- C7: for every element and every text string (no validation of the
text), `type_text` first clears the element's content and then sends the
text as keystrokes, in that order. -/
theorem type_text_clear_then_keys (e : Element) (text : String)
    (h1 : e.clearResult = .ok ()) (h2 : e.sendKeysResult text = .ok ()) :
    type_text e text =
      (.ok (), [Event.elemClear e.id, Event.sendKeys e.id text]) := by
  simp [type_text, h1, h2]

theorem type_text_clear_then_keys_witness :
    type_text okElement "hello world" =
      (.ok (), [Event.elemClear 7, Event.sendKeys 7 "hello world"]) :=
  type_text_clear_then_keys okElement "hello world" rfl rfl

/-- C8: every `close()` forwards `quit` to the driver with no idempotence
guard: the result is exactly the driver's `quit` outcome (any error
propagates), each call emits exactly one quit command, and two
consecutive calls emit two. -/
theorem close_always_quits (d : Driver) :
    (close d).1 = d.quitResult ∧
    (close d).2 = [Event.driverQuit] ∧
    (close d).2 ++ (close d).2 = [Event.driverQuit, Event.driverQuit] :=
  ⟨rfl, rfl, rfl⟩

/-- C9: for any `by` other than `"css"` — including values that
`find_element` rejects with a validation error, such as `"id"` —
`wait_for_element` raises no validation error: it silently maps `by` to
an XPATH lookup and returns the poll outcome as an option, while
`find_element` on the same non-css, non-xpath `by` raises. -/
theorem wait_for_element_non_css_is_xpath (d : Driver)
    (waitUntil : ByMethod → String → Nat → Except PyError Nat)
    (selector by_ : String) (timeout : Nat) (h : by_ ≠ "css") :
    byMethodOf by_ = ByMethod.xpath ∧
    (wait_for_element (.ok ()) waitUntil selector by_ timeout).2 =
      [Event.waitUntilPresent ByMethod.xpath selector timeout] ∧
    (wait_for_element (.ok ()) waitUntil selector by_ timeout).1 =
      .ok (waitUntil ByMethod.xpath selector timeout).toOption ∧
    (by_ ≠ "xpath" → find_element d selector by_ =
      (.error (.valueError ("Unsupported selector type: " ++ by_)), [])) := by
  have hb : byMethodOf by_ = ByMethod.xpath := by simp [byMethodOf, h]
  refine ⟨hb, ?_, ?_, fun h2 => by simp [find_element, h, h2]⟩
  · cases hw : waitUntil ByMethod.xpath selector timeout <;>
      simp [wait_for_element, hb, hw]
  · cases hw : waitUntil ByMethod.xpath selector timeout <;>
      simp [wait_for_element, hb, hw, Except.toOption]

theorem wait_for_element_non_css_is_xpath_witness :
    byMethodOf "id" = ByMethod.xpath ∧
    (wait_for_element (.ok ()) pollFinds "foo" "id" 10).1 = .ok (some 5) ∧
    find_element okDriver "foo" "id" =
      (.error (.valueError ("Unsupported selector type: " ++ "id")), []) :=
  ⟨(wait_for_element_non_css_is_xpath okDriver pollFinds "foo" "id" 10
      (by decide)).1,
   (wait_for_element_non_css_is_xpath okDriver pollFinds "foo" "id" 10
      (by decide)).2.2.1,
   (wait_for_element_non_css_is_xpath okDriver pollFinds "foo" "id" 10
      (by decide)).2.2.2 (by decide)⟩

/-- C10: the selenium imports of `wait_for_element` run before its
`try`/bare-`except` guard, so when that import fails the call raises
that import error to the caller instead of returning `None`; only errors
raised by the polling itself are swallowed into a `None` return. -/
theorem wait_for_element_import_failure_raises (m : String)
    (waitUntil : ByMethod → String → Nat → Except PyError Nat)
    (selector by_ : String) (timeout : Nat) :
    wait_for_element (.error (.importError m)) waitUntil selector by_
        timeout = (.error (.importError m), []) ∧
    (∀ e : PyError, waitUntil (byMethodOf by_) selector timeout = .error e →
      (wait_for_element (.ok ()) waitUntil selector by_ timeout).1 =
        .ok none) := by
  constructor
  · rfl
  · intro e he
    simp [wait_for_element, he]

theorem wait_for_element_import_failure_raises_witness :
    wait_for_element (.error (.importError "No module named selenium"))
        pollFinds "a" "css" 10 =
      (.error (.importError "No module named selenium"), []) ∧
    (wait_for_element (.ok ()) pollTimesOut "a" "css" 10).1 = .ok none :=
  ⟨(wait_for_element_import_failure_raises "No module named selenium"
      pollFinds "a" "css" 10).1,
   (wait_for_element_import_failure_raises "No module named selenium"
      pollTimesOut "a" "css" 10).2 .timeoutError rfl⟩
